import Mathlib

/-!
# Fiber-specific storage: `boost::fibers::fiber_specific_ptr`

A shallow embedding of `include/boost/fiber/fss.hpp`.

* Pointers are natural numbers, `0` being the null pointer.
* A slot handle is identified by its own address (`this`), which is the key
  under which every fiber stores the handle's value.
* The member functions `get`, `release`, `reset` and the destructor are
  translated statement by statement.  Each run reports its result (a value or
  a fault), the registry state it stopped in, the `set_fss_data` calls it
  made and the cleanup invocations the registry performed on its behalf.
* The scheduler singleton and the per-fiber table (`detail/scheduler.hpp`,
  `detail/fss.hpp`) are not part of the translated file; they are modelled
  from the specification and marked as such.
-/

namespace boost.fibers

/-- A raw pointer (`void *` / `T *`); `0` is the null pointer. -/
abbrev Ptr := Nat

/-- Identity of a fiber (the address of its `fiber_base`). -/
abbrev FiberId := Nat

/-- Identity of a slot handle: the address of the `fiber_specific_ptr` object. -/
abbrev SlotId := Nat

/-- A function pointer `void (*)(T*)`; `0` is the null function pointer. -/
abbrev FnPtr := Nat

/-- Observable effect of running a cleanup strategy. -/
inductive Effect where
  /-- The expression `delete p` ran on a non-null `p`: the object is destroyed. -/
  | destroy (p : Ptr)
  /-- The user function `fn` was called with argument `arg`. -/
  | call (fn : FnPtr) (arg : Ptr)
  deriving DecidableEq, Repr

/-- The two cleanup strategies derived from `detail::fss_cleanup_function`
(`fss.hpp` lines 32-48). -/
inductive fss_cleanup_function where
  | default_cleanup_function
  | custom_cleanup_function (fn : FnPtr)
  deriving DecidableEq, Repr

/-- The call operator `operator()( void * data)` of a cleanup strategy.

* default: `delete static_cast< T * >( data)`; deleting a null pointer has no
  effect in C++.
* custom: `if ( fn) fn( static_cast< T * >( data) )`. -/
def fss_cleanup_function.invoke : fss_cleanup_function → Ptr → List Effect
  | .default_cleanup_function, data => if data = 0 then [] else [Effect.destroy data]
  | .custom_cleanup_function fn, data => if fn ≠ 0 then [Effect.call fn data] else []

/-- A slot handle: its address and the strategy held in `cleanup_fn_`. -/
structure fiber_specific_ptr where
  /-- The address of the handle, the value of `this` in its member functions. -/
  addr : SlotId
  cleanup_fn_ : fss_cleanup_function
  deriving DecidableEq, Repr

/-- The constructor `fiber_specific_ptr()` (line 55). -/
def fiber_specific_ptr.ctor (addr : SlotId) : fiber_specific_ptr :=
  ⟨addr, .default_cleanup_function⟩

/-- The constructor `fiber_specific_ptr( void(*fn)(T*) )` (line 59). -/
def fiber_specific_ptr.ctor_fn (addr : SlotId) (fn : FnPtr) : fiber_specific_ptr :=
  ⟨addr, .custom_cleanup_function fn⟩

/-- Modelled from the spec: the binding record kept per (fiber, slot) pair,
declared in the absent `detail/fss.hpp`:
`{ value, cleanup: reference to cleanup strategy, owns }`. -/
structure Binding where
  value : Ptr
  cleanup : fss_cleanup_function
  owns : Bool
  deriving DecidableEq, Repr

/-- Modelled from the spec: the private table of one fiber (absent
`fiber_base::fss_data_`), a keyed table from slot identity to binding record. -/
abbrev FssTable := List (SlotId × Binding)

/-- The record bound to `key` in a table, if any. -/
def FssTable.find (tbl : FssTable) (key : SlotId) : Option Binding :=
  tbl.lookup key

/-- Modelled from the spec: absent `fiber_base::get_fss_data`
(`fiber.getBinding(slotIdentity) -> rawPointer | null`): the current value
bound to the slot for this fiber, null when no binding exists. -/
def get_fss_data (tbl : FssTable) (key : SlotId) : Ptr :=
  match tbl.find key with
  | some b => b.value
  | none => 0

/-- A cleanup invocation performed by the registry: the strategy `cleanup` of
the binding stored under `slot` was run on `data`. -/
structure Invocation where
  slot : SlotId
  cleanup : fss_cleanup_function
  data : Ptr
  deriving DecidableEq, Repr

/-- Modelled from the spec: the spec does not settle whether the absent
`fiber_base::set_fss_data` finalises the record it replaces (section 3 and
section 4.1 say handle destruction runs cleanup, section 6 says the registry
never does outside fiber termination).  The decision is therefore an argument
of the model: given the prior record, the new value and the new owns-flag it
tells whether the prior record's cleanup is run. -/
abbrev FinalizePolicy := Binding → Ptr → Bool → Bool

/-- Modelled from the spec: table part of the absent `fiber_base::set_fss_data`
(`fiber.setBinding(slotIdentity, cleanupStrategyRef, value, owns)`): installs
or replaces the binding of the slot. -/
def set_fss_data (tbl : FssTable) (key : SlotId) (cleanup_fn : fss_cleanup_function)
    (data : Ptr) (owns : Bool) : FssTable :=
  (key, ⟨data, cleanup_fn, owns⟩) :: tbl.filter (fun e => e.1 != key)

/-- Modelled from the spec: cleanup part of the absent `fiber_base::set_fss_data`:
the invocations the registry performs on the record being replaced. -/
def set_fss_data_cleanups (pol : FinalizePolicy) (tbl : FssTable) (key : SlotId)
    (data : Ptr) (owns : Bool) : List Invocation :=
  match tbl.find key with
  | some prior => if pol prior data owns then [⟨key, prior.cleanup, prior.value⟩] else []
  | none => []

/-- Modelled from the spec: the scheduler object behind the absent
`detail::scheduler::instance()`; `active` is the result of `active()`, the
fiber currently running, `none` for a null pointer. -/
structure Scheduler where
  active : Option FiberId
  deriving DecidableEq, Repr

/-- The registry state seen by a slot handle: the scheduler singleton
(`none` when `detail::scheduler::instance()` is null) and every fiber's
private table. -/
structure Registry where
  scheduler : Option Scheduler
  fss_data_ : FiberId → FssTable

/-- The fiber returned by `registry.activeFiber()`: null if none is running or
no scheduler exists. -/
def Registry.activeFiber (r : Registry) : Option FiberId :=
  match r.scheduler with
  | some s => s.active
  | none => none

/-- Modelled from the spec: the scheduler resumes fiber `f`, which becomes the
active fiber; no table changes. -/
def Registry.resume (r : Registry) (f : FiberId) : Registry :=
  { r with scheduler := some ⟨some f⟩ }

/-- The registry in which fiber `f` holds the table `tbl`, all else equal. -/
def Registry.withTable (r : Registry) (f : FiberId) (tbl : FssTable) : Registry :=
  { r with fss_data_ := Function.update r.fss_data_ f tbl }

/-- The record bound to `(f, key)`. -/
def Registry.binding (r : Registry) (f : FiberId) (key : SlotId) : Option Binding :=
  (r.fss_data_ f).find key

/-- Ways a member function can stop without returning. -/
inductive Fault where
  /-- The condition of a `BOOST_ASSERT` evaluated to false. -/
  | assertion_failed
  /-- A member function was called through a null pointer, as in
  `detail::scheduler::instance()->active()` when `instance()` is null. -/
  | null_dereference
  deriving DecidableEq, Repr

/-- One call of `set_fss_data`, with the fiber it was made on. -/
structure SetCall where
  fiber : FiberId
  key : SlotId
  cleanup_fn : fss_cleanup_function
  data : Ptr
  owns : Bool
  deriving DecidableEq, Repr

/-- Result of a member function: the value returned or the fault. -/
inductive Result (α : Type) where
  | ok (a : α)
  | fault (f : Fault)
  deriving DecidableEq, Repr

/-- A completed or aborted run of a member function. -/
structure Run (α : Type) where
  result : Result α
  /-- The registry state when the run returned or stopped. -/
  state : Registry
  /-- The `set_fss_data` calls made, in order. -/
  calls : List SetCall
  /-- The cleanup invocations performed by the registry, in order. -/
  cleanups : List Invocation

/-- The call `detail::scheduler::instance()->active()->set_fss_data( key,
cleanup_fn, data, owns)` made while fiber `f` is active. -/
def Registry.set (pol : FinalizePolicy) (r : Registry) (f : FiberId) (key : SlotId)
    (cleanup_fn : fss_cleanup_function) (data : Ptr) (owns : Bool) :
    Registry × List SetCall × List Invocation :=
  (r.withTable f (set_fss_data (r.fss_data_ f) key cleanup_fn data owns),
   [⟨f, key, cleanup_fn, data, owns⟩],
   set_fss_data_cleanups pol (r.fss_data_ f) key data owns)

/-- The member `T * get() const` (lines 71-77). -/
def fiber_specific_ptr.get (self : fiber_specific_ptr) (r : Registry) : Run Ptr :=
  match r.scheduler with
  | none => ⟨.fault .null_dereference, r, [], []⟩
  | some s =>
    match s.active with
    | none => ⟨.fault .assertion_failed, r, [], []⟩
    | some f => ⟨.ok (get_fss_data (r.fss_data_ f) self.addr), r, [], []⟩

/-- The member `T * release()` (lines 85-91). -/
def fiber_specific_ptr.release (pol : FinalizePolicy) (self : fiber_specific_ptr)
    (r : Registry) : Run Ptr :=
  let g := self.get r
  match g.result, g.state.activeFiber with
  | .ok tmp, some f =>
    let (r1, cs, inv) := g.state.set pol f self.addr self.cleanup_fn_ 0 false
    ⟨.ok tmp, r1, g.calls ++ cs, g.cleanups ++ inv⟩
  | .ok _, none => ⟨.fault .null_dereference, g.state, g.calls, g.cleanups⟩
  | .fault e, _ => ⟨.fault e, g.state, g.calls, g.cleanups⟩

/-- The member `void reset( T * t)` (lines 93-99). -/
def fiber_specific_ptr.reset (pol : FinalizePolicy) (self : fiber_specific_ptr)
    (t : Ptr) (r : Registry) : Run Unit :=
  let g := self.get r
  match g.result, g.state.activeFiber with
  | .ok c, some f =>
    if c ≠ t then
      let (r1, cs, inv) := g.state.set pol f self.addr self.cleanup_fn_ t true
      ⟨.ok (), r1, g.calls ++ cs, g.cleanups ++ inv⟩
    else ⟨.ok (), g.state, g.calls, g.cleanups⟩
  | .ok _, none => ⟨.fault .null_dereference, g.state, g.calls, g.cleanups⟩
  | .fault e, _ => ⟨.fault e, g.state, g.calls, g.cleanups⟩

/-- The destructor `~fiber_specific_ptr()` (lines 63-69). -/
def fiber_specific_ptr.dtor (pol : FinalizePolicy) (self : fiber_specific_ptr)
    (r : Registry) : Run Unit :=
  match r.scheduler with
  | none => ⟨.ok (), r, [], []⟩
  | some s =>
    match s.active with
    | none => ⟨.ok (), r, [], []⟩
    | some f =>
      let (r1, cs, inv) := r.set pol f self.addr self.cleanup_fn_ 0 true
      ⟨.ok (), r1, cs, inv⟩

/-- Modelled from the spec: the implicit contract at fiber termination (absent
scheduler code): for every slot bound in the terminating fiber with
`owns == true` the registry invokes that binding's cleanup strategy on its
value once, then discards the bindings. -/
def Registry.terminate (r : Registry) (f : FiberId) : Run Unit :=
  ⟨.ok (),
   r.withTable f [],
   [],
   ((r.fss_data_ f).filter (fun e => e.2.owns)).map
     (fun e => ⟨e.1, e.2.cleanup, e.2.value⟩)⟩

/-! ## Concrete states used as inputs -/

/-- A registry policy that never finalises a replaced record. -/
def never_finalize : FinalizePolicy := fun _ _ _ => false

/-- A registry policy that finalises the replaced record when the incoming
owns-flag is set. -/
def finalize_when_owned : FinalizePolicy := fun _ _ owns => owns

/-- Fiber 1 is active and holds pointer 5 under slot 10 with `owns = true`;
fiber 2 holds pointer 6 under the same slot. -/
def registry_two_fibers : Registry :=
  ⟨some ⟨some 1⟩, fun f =>
    if f = 1 then [(10, ⟨5, .default_cleanup_function, true⟩)]
    else if f = 2 then [(10, ⟨6, .default_cleanup_function, true⟩)]
    else []⟩

/-- A scheduler exists, no fiber is active. -/
def registry_idle : Registry :=
  ⟨some ⟨none⟩, fun _ => []⟩

/-- No scheduler exists: `detail::scheduler::instance()` is null. -/
def registry_no_scheduler : Registry :=
  ⟨none, fun f => if f = 1 then [(10, ⟨5, .default_cleanup_function, true⟩)] else []⟩

/-! ## The per-fiber table -/

theorem FssTable.find_set_same (tbl : FssTable) (key : SlotId) (c : fss_cleanup_function)
    (d : Ptr) (o : Bool) :
    FssTable.find (set_fss_data tbl key c d o) key = some ⟨d, c, o⟩ := by
  simp [FssTable.find, set_fss_data, List.lookup]

theorem FssTable.lookup_filter_ne (tbl : FssTable) (key k : SlotId) (h : k ≠ key) :
    List.lookup k (tbl.filter (fun e => e.1 != key)) = List.lookup k tbl := by
  induction tbl with
  | nil => rfl
  | cons e rest ih =>
    obtain ⟨a, b⟩ := e
    by_cases hak : a = key
    · subst hak
      have hka : (k == a) = false := by simpa using h
      simp [List.filter, List.lookup, hka, ih]
    · have hne : (a != key) = true := by simpa using hak
      simp only [List.filter, hne, List.lookup, ih]

theorem FssTable.find_set_other (tbl : FssTable) (key k : SlotId) (c : fss_cleanup_function)
    (d : Ptr) (o : Bool) (h : k ≠ key) :
    FssTable.find (set_fss_data tbl key c d o) k = FssTable.find tbl k := by
  have hk : (k == key) = false := by simpa using h
  simp [FssTable.find, set_fss_data, List.lookup, hk, FssTable.lookup_filter_ne tbl key k h]

theorem FssTable.lookup_filter_same (tbl : FssTable) (key : SlotId) :
    List.lookup key (tbl.filter (fun e => e.1 != key)) = none := by
  induction tbl with
  | nil => rfl
  | cons e rest ih =>
    obtain ⟨a, b⟩ := e
    by_cases hak : a = key
    · subst hak
      simp [List.filter, ih]
    · have hne : (a != key) = true := by simpa using hak
      have hka : (key == a) = false := by simpa using fun h : key = a => hak h.symm
      simp only [List.filter, hne, List.lookup, hka, ih]

theorem get_fss_data_set_same (tbl : FssTable) (key : SlotId) (c : fss_cleanup_function)
    (d : Ptr) (o : Bool) :
    get_fss_data (set_fss_data tbl key c d o) key = d := by
  simp [get_fss_data, FssTable.find_set_same]

/-! ## Registry updates -/

@[simp]
theorem Registry.withTable_scheduler (r : Registry) (f : FiberId) (tbl : FssTable) :
    (r.withTable f tbl).scheduler = r.scheduler := rfl

@[simp]
theorem Registry.withTable_activeFiber (r : Registry) (f : FiberId) (tbl : FssTable) :
    (r.withTable f tbl).activeFiber = r.activeFiber := rfl

@[simp]
theorem Registry.withTable_same (r : Registry) (f : FiberId) (tbl : FssTable) :
    (r.withTable f tbl).fss_data_ f = tbl := by
  simp [Registry.withTable]

theorem Registry.withTable_other (r : Registry) (f g : FiberId) (tbl : FssTable)
    (h : g ≠ f) : (r.withTable f tbl).fss_data_ g = r.fss_data_ g := by
  simp [Registry.withTable, Function.update_noteq h]

@[simp]
theorem Registry.resume_activeFiber (r : Registry) (f : FiberId) :
    (r.resume f).activeFiber = some f := rfl

@[simp]
theorem Registry.resume_fss_data (r : Registry) (f : FiberId) :
    (r.resume f).fss_data_ = r.fss_data_ := rfl

/-! ## Run equations of the member functions -/

theorem Registry.scheduler_of_activeFiber {r : Registry} {F : FiberId}
    (h : r.activeFiber = some F) : r.scheduler = some ⟨some F⟩ := by
  obtain ⟨sch, tbls⟩ := r
  cases sch with
  | none => simp [Registry.activeFiber] at h
  | some s =>
    obtain ⟨a⟩ := s
    simp only [Registry.activeFiber] at h
    simp [h]

theorem fiber_specific_ptr.get_active (S : fiber_specific_ptr) {r : Registry} {F : FiberId}
    (h : r.activeFiber = some F) :
    S.get r = ⟨.ok (get_fss_data (r.fss_data_ F) S.addr), r, [], []⟩ := by
  simp [fiber_specific_ptr.get, Registry.scheduler_of_activeFiber h]

theorem fiber_specific_ptr.release_active (pol : FinalizePolicy) (S : fiber_specific_ptr)
    {r : Registry} {F : FiberId} (h : r.activeFiber = some F) :
    S.release pol r =
      ⟨.ok (get_fss_data (r.fss_data_ F) S.addr),
       r.withTable F (set_fss_data (r.fss_data_ F) S.addr S.cleanup_fn_ 0 false),
       [⟨F, S.addr, S.cleanup_fn_, 0, false⟩],
       set_fss_data_cleanups pol (r.fss_data_ F) S.addr 0 false⟩ := by
  simp [fiber_specific_ptr.release, S.get_active h, h, Registry.set]

theorem fiber_specific_ptr.reset_active_ne (pol : FinalizePolicy) (S : fiber_specific_ptr)
    {r : Registry} {F : FiberId} (t : Ptr) (h : r.activeFiber = some F)
    (hne : get_fss_data (r.fss_data_ F) S.addr ≠ t) :
    S.reset pol t r =
      ⟨.ok (),
       r.withTable F (set_fss_data (r.fss_data_ F) S.addr S.cleanup_fn_ t true),
       [⟨F, S.addr, S.cleanup_fn_, t, true⟩],
       set_fss_data_cleanups pol (r.fss_data_ F) S.addr t true⟩ := by
  simp [fiber_specific_ptr.reset, S.get_active h, h, Registry.set, hne]

theorem fiber_specific_ptr.reset_active_eq (pol : FinalizePolicy) (S : fiber_specific_ptr)
    {r : Registry} {F : FiberId} (t : Ptr) (h : r.activeFiber = some F)
    (heq : get_fss_data (r.fss_data_ F) S.addr = t) :
    S.reset pol t r = ⟨.ok (), r, [], []⟩ := by
  simp [fiber_specific_ptr.reset, S.get_active h, h, heq]

theorem fiber_specific_ptr.dtor_active (pol : FinalizePolicy) (S : fiber_specific_ptr)
    {r : Registry} {F : FiberId} (h : r.activeFiber = some F) :
    S.dtor pol r =
      ⟨.ok (),
       r.withTable F (set_fss_data (r.fss_data_ F) S.addr S.cleanup_fn_ 0 true),
       [⟨F, S.addr, S.cleanup_fn_, 0, true⟩],
       set_fss_data_cleanups pol (r.fss_data_ F) S.addr 0 true⟩ := by
  simp [fiber_specific_ptr.dtor, Registry.scheduler_of_activeFiber h, Registry.set]

theorem fiber_specific_ptr.reset_active_value (pol : FinalizePolicy)
    (S : fiber_specific_ptr) (r : Registry) (F : FiberId) (p : Ptr)
    (hF : r.activeFiber = some F) :
    (S.reset pol p r).result = .ok () ∧
    (S.reset pol p r).state.activeFiber = some F ∧
    get_fss_data ((S.reset pol p r).state.fss_data_ F) S.addr = p := by
  by_cases hc : get_fss_data (r.fss_data_ F) S.addr = p
  · rw [S.reset_active_eq pol p hF hc]
    exact ⟨rfl, hF, hc⟩
  · rw [S.reset_active_ne pol p hF hc]
    refine ⟨rfl, hF, ?_⟩
    show get_fss_data ((r.withTable F _).fss_data_ F) S.addr = p
    rw [Registry.withTable_same, get_fss_data_set_same]

/-! ## Cleanup strategies -/

/-- C10, as amended: run on a null pointer the default strategy destroys
nothing; the custom strategy with a null function pointer does nothing for
every argument; the custom strategy with a non-null function pointer calls it
exactly once with the argument it was given, the null pointer included. -/
theorem cleanup_invoke_spec (fn : FnPtr) (raw : Ptr) :
    fss_cleanup_function.default_cleanup_function.invoke 0 = [] ∧
    (fss_cleanup_function.custom_cleanup_function 0).invoke raw = [] ∧
    (fss_cleanup_function.custom_cleanup_function (fn + 1)).invoke raw
      = [Effect.call (fn + 1) raw] := by
  simp [fss_cleanup_function.invoke]

/-- C10, as stated, fails: the custom strategy holding the non-null function
pointer 7 calls it when run on the null pointer. -/
theorem custom_cleanup_calls_fn_on_null :
    (fss_cleanup_function.custom_cleanup_function 7).invoke 0 = [Effect.call 7 0] ∧
    (fss_cleanup_function.custom_cleanup_function 7).invoke 0 ≠ [] := by
  decide

/-! ## `get` -/

/-- C3: with fiber `F` active, `get()` returns the value stored in the binding
of `(F, S)`, null when there is none, makes no registry call and leaves the
registry as it found it, so any number of consecutive calls return the same
pointer. -/
theorem get_returns_bound_value (S : fiber_specific_ptr) (r : Registry) (F : FiberId)
    (hF : r.activeFiber = some F) :
    (S.get r).result
        = .ok (match r.binding F S.addr with
               | some b => b.value
               | none => 0) ∧
    (S.get r).state = r ∧ (S.get r).calls = [] ∧ (S.get r).cleanups = [] ∧
    ∀ n : Nat, (S.get ((fun st => (S.get st).state)^[n] r)).result = (S.get r).result := by
  have hstate : ∀ st : Registry, (S.get st).state = st := by
    intro st
    obtain ⟨sch, tbls⟩ := st
    cases sch with
    | none => rfl
    | some s =>
      obtain ⟨a⟩ := s
      cases a <;> rfl
  refine ⟨?_, hstate r, ?_, ?_, ?_⟩
  · rw [S.get_active hF]; rfl
  · rw [S.get_active hF]
  · rw [S.get_active hF]
  · intro n
    have hiter : (fun st => (S.get st).state)^[n] r = r := by
      induction n with
      | zero => rfl
      | succ k ih => rw [Function.iterate_succ_apply', ih, hstate]
    rw [hiter]

/-- Instance of `get_returns_bound_value`: fiber 1 active, slot 10 bound to 5. -/
theorem get_returns_bound_value_witness :
    registry_two_fibers.activeFiber = some 1 ∧
    ((fiber_specific_ptr.ctor 10).get registry_two_fibers).result = .ok 5 :=
  ⟨rfl, (get_returns_bound_value (fiber_specific_ptr.ctor 10) registry_two_fibers 1 rfl).1⟩

/-! ## `reset` -/

/-- C2: with fiber `F` active, after `S.reset(p)` fiber `F` is still active and
`S.get()` returns exactly `p`, for every registry state and every pointer `p`,
null or not, equal to the current value or not. -/
theorem reset_then_get (pol : FinalizePolicy) (S : fiber_specific_ptr) (r : Registry)
    (F : FiberId) (p : Ptr) (hF : r.activeFiber = some F) :
    (S.reset pol p r).result = .ok () ∧
    (S.reset pol p r).state.activeFiber = some F ∧
    (S.get (S.reset pol p r).state).result = .ok p := by
  obtain ⟨hres, hF1, hval⟩ := S.reset_active_value pol r F p hF
  refine ⟨hres, hF1, ?_⟩
  rw [S.get_active hF1, hval]

/-- Instance of `reset_then_get`: fiber 1 active, slot 10 reset from 5 to 9. -/
theorem reset_then_get_witness :
    registry_two_fibers.activeFiber = some 1 ∧
    ((fiber_specific_ptr.ctor 10).get
      ((fiber_specific_ptr.ctor 10).reset never_finalize 9 registry_two_fibers).state).result
        = .ok 9 :=
  ⟨rfl, (reset_then_get never_finalize (fiber_specific_ptr.ctor 10) registry_two_fibers 1 9
    rfl).2.2⟩

/-- C7: with a fiber active, a second `reset(p)` directly after `reset(p)`
makes no `set_fss_data` call, triggers no cleanup, leaves the registry exactly
as the first call left it, and `get()` still returns `p`; more generally
`reset(p)` does nothing whenever `get()` currently returns `p`. -/
theorem reset_same_pointer_noop (pol : FinalizePolicy) (S : fiber_specific_ptr)
    (r : Registry) (F : FiberId) (p : Ptr) (hF : r.activeFiber = some F) :
    (S.reset pol p (S.reset pol p r).state).result = .ok () ∧
    (S.reset pol p (S.reset pol p r).state).calls = [] ∧
    (S.reset pol p (S.reset pol p r).state).cleanups = [] ∧
    (S.reset pol p (S.reset pol p r).state).state = (S.reset pol p r).state ∧
    (S.get (S.reset pol p (S.reset pol p r).state).state).result = .ok p ∧
    ((S.get r).result = .ok p →
      (S.reset pol p r).result = .ok () ∧ (S.reset pol p r).calls = [] ∧
      (S.reset pol p r).cleanups = [] ∧ (S.reset pol p r).state = r) := by
  obtain ⟨-, hF1, hcur⟩ := S.reset_active_value pol r F p hF
  have hget : (S.get (S.reset pol p r).state).result = .ok p := by
    rw [S.get_active hF1, hcur]
  have hsecond := S.reset_active_eq pol p hF1 hcur
  refine ⟨?_, ?_, ?_, ?_, ?_, ?_⟩
  · rw [hsecond]
  · rw [hsecond]
  · rw [hsecond]
  · rw [hsecond]
  · rw [hsecond]; exact hget
  · intro h
    rw [S.get_active hF] at h
    rw [S.reset_active_eq pol p hF (Result.ok.inj h)]
    exact ⟨rfl, rfl, rfl, rfl⟩

/-- Instance of `reset_same_pointer_noop`: slot 10 reset to 9 twice in fiber 1. -/
theorem reset_same_pointer_noop_witness :
    registry_two_fibers.activeFiber = some 1 ∧
    ((fiber_specific_ptr.ctor 10).reset finalize_when_owned 9
      ((fiber_specific_ptr.ctor 10).reset finalize_when_owned 9
        registry_two_fibers).state).calls = [] :=
  ⟨rfl, (reset_same_pointer_noop finalize_when_owned (fiber_specific_ptr.ctor 10)
    registry_two_fibers 1 9 rfl).2.1⟩

/-! ## `release` -/

/-- C4: with fiber `F` active, `release()` returns a pointer, and it is exactly
the pointer `get()` returns in the state before the call; after `reset(v)` in
`F`, `release()` in `F` returns `v`. -/
theorem release_returns_get (pol : FinalizePolicy) (S : fiber_specific_ptr) (r : Registry)
    (F : FiberId) (v : Ptr) (hF : r.activeFiber = some F) :
    (S.release pol r).result = (S.get r).result ∧
    (∃ q, (S.release pol r).result = .ok q) ∧
    (S.release pol (S.reset pol v r).state).result = .ok v := by
  obtain ⟨-, hF1, hval⟩ := S.reset_active_value pol r F v hF
  refine ⟨?_, ?_, ?_⟩
  · rw [S.release_active pol hF, S.get_active hF]
  · rw [S.release_active pol hF]; exact ⟨_, rfl⟩
  · rw [S.release_active pol hF1, hval]

/-- Instance of `release_returns_get`: fiber 1 active, slot 10 bound to 5. -/
theorem release_returns_get_witness :
    registry_two_fibers.activeFiber = some 1 ∧
    ((fiber_specific_ptr.ctor 10).release never_finalize registry_two_fibers).result
      = .ok 5 :=
  ⟨rfl, (release_returns_get never_finalize (fiber_specific_ptr.ctor 10) registry_two_fibers
    1 0 rfl).1⟩

/-- C5, as amended: with fiber `F` active and `(F, S)` bound to `p`,
`release()` returns `p` and makes exactly one `set_fss_data` call, for
`(F, S)`, passing the null pointer together with `owns = false`; afterwards
the binding of `(F, S)` holds the null pointer with `owns = false` and `get()`
returns null. -/
theorem release_clears_binding (pol : FinalizePolicy) (S : fiber_specific_ptr)
    (r : Registry) (F : FiberId) (p : Ptr) (hF : r.activeFiber = some F)
    (hp : (S.get r).result = .ok p) :
    (S.release pol r).result = .ok p ∧
    (S.release pol r).calls = [⟨F, S.addr, S.cleanup_fn_, 0, false⟩] ∧
    (S.release pol r).state.binding F S.addr = some ⟨0, S.cleanup_fn_, false⟩ ∧
    (S.get (S.release pol r).state).result = .ok 0 := by
  have hF1 : (r.withTable F (set_fss_data (r.fss_data_ F) S.addr S.cleanup_fn_ 0
      false)).activeFiber = some F := hF
  rw [S.get_active hF] at hp
  rw [S.release_active pol hF]
  refine ⟨hp, rfl, ?_, ?_⟩
  · simp [Registry.binding, FssTable.find_set_same]
  · show (S.get (r.withTable F _)).result = .ok 0
    rw [S.get_active hF1]
    simp [get_fss_data_set_same]

/-- Instance of `release_clears_binding`: fiber 1 active, slot 10 bound to 5. -/
theorem release_clears_binding_witness :
    registry_two_fibers.activeFiber = some 1 ∧
    ((fiber_specific_ptr.ctor 10).get registry_two_fibers).result = .ok 5 ∧
    ((fiber_specific_ptr.ctor 10).get
      ((fiber_specific_ptr.ctor 10).release never_finalize registry_two_fibers).state).result
        = .ok 0 :=
  ⟨rfl, rfl, (release_clears_binding never_finalize (fiber_specific_ptr.ctor 10)
    registry_two_fibers 1 5 rfl rfl).2.2.2⟩

/-- C5, as stated, fails: fiber 1 is active and slot 10 is bound to pointer 5;
`release()` passes the null pointer, not 5, to `set_fss_data`, the binding
then holds the null pointer, and `get()` returns null instead of 5. -/
theorem release_does_not_keep_value :
    ((fiber_specific_ptr.ctor 10).get registry_two_fibers).result = .ok 5 ∧
    ((fiber_specific_ptr.ctor 10).release never_finalize registry_two_fibers).calls
      ≠ [⟨1, 10, .default_cleanup_function, 5, false⟩] ∧
    ((fiber_specific_ptr.ctor 10).release never_finalize registry_two_fibers).state.binding 1 10
      ≠ some ⟨5, .default_cleanup_function, false⟩ ∧
    ((fiber_specific_ptr.ctor 10).get
      ((fiber_specific_ptr.ctor 10).release never_finalize registry_two_fibers).state).result
        ≠ .ok 5 := by
  decide

/-! ## Calls without an active fiber -/

/-- With a scheduler but no active fiber, `get()`, `release()` and `reset(t)`
stop at the `BOOST_ASSERT` of `get()`: no value is returned, no `set_fss_data`
call is made and the registry is unchanged. -/
theorem no_active_fiber_asserts (pol : FinalizePolicy) (S : fiber_specific_ptr)
    (r : Registry) (t : Ptr) (h : r.scheduler = some ⟨none⟩) :
    ((S.get r).result = .fault .assertion_failed ∧ (S.get r).state = r ∧
      (S.get r).calls = [] ∧ (S.get r).cleanups = []) ∧
    ((S.release pol r).result = .fault .assertion_failed ∧ (S.release pol r).state = r ∧
      (S.release pol r).calls = [] ∧ (S.release pol r).cleanups = []) ∧
    ((S.reset pol t r).result = .fault .assertion_failed ∧ (S.reset pol t r).state = r ∧
      (S.reset pol t r).calls = [] ∧ (S.reset pol t r).cleanups = []) := by
  simp [fiber_specific_ptr.get, fiber_specific_ptr.release, fiber_specific_ptr.reset, h]

/-- Instance of `no_active_fiber_asserts`: a scheduler with no active fiber. -/
theorem no_active_fiber_asserts_witness :
    registry_idle.scheduler = some ⟨none⟩ ∧
    ((fiber_specific_ptr.ctor 10).get registry_idle).result = .fault .assertion_failed :=
  ⟨rfl, (no_active_fiber_asserts never_finalize (fiber_specific_ptr.ctor 10) registry_idle 0
    rfl).1.1⟩

/-- C8 at the failing input: with no scheduler instance no fiber is active,
yet `get()`, `release()` and `reset(3)` on slot 10 do not reach the assertion
failure; `instance()->active()` is evaluated through the null scheduler
pointer. -/
theorem no_scheduler_not_assertion :
    registry_no_scheduler.activeFiber = none ∧
    ((fiber_specific_ptr.ctor 10).get registry_no_scheduler).result
      = .fault .null_dereference ∧
    ((fiber_specific_ptr.ctor 10).get registry_no_scheduler).result
      ≠ .fault .assertion_failed ∧
    ((fiber_specific_ptr.ctor 10).release never_finalize registry_no_scheduler).result
      ≠ .fault .assertion_failed ∧
    ((fiber_specific_ptr.ctor 10).reset never_finalize 3 registry_no_scheduler).result
      ≠ .fault .assertion_failed := by
  decide

/-! ## The destructor -/

/-- C9: destroying a slot handle when there is no scheduler instance, or one
without an active fiber, returns normally, makes no `set_fss_data` call,
triggers no cleanup and leaves the registry, hence every binding of every
fiber, unchanged; with fiber `F` active it makes exactly one `set_fss_data`
call, for `(F, this)`, with a null value and `owns = true`. -/
theorem dtor_spec (pol : FinalizePolicy) (S : fiber_specific_ptr) (r : Registry) :
    match r.scheduler with
    | none =>
      (S.dtor pol r).result = .ok () ∧ (S.dtor pol r).state = r ∧
        (S.dtor pol r).calls = [] ∧ (S.dtor pol r).cleanups = []
    | some ⟨none⟩ =>
      (S.dtor pol r).result = .ok () ∧ (S.dtor pol r).state = r ∧
        (S.dtor pol r).calls = [] ∧ (S.dtor pol r).cleanups = []
    | some ⟨some F⟩ =>
      (S.dtor pol r).result = .ok () ∧
        (S.dtor pol r).calls = [⟨F, S.addr, S.cleanup_fn_, 0, true⟩] := by
  obtain ⟨sch, tbls⟩ := r
  cases sch with
  | none => simp [fiber_specific_ptr.dtor]
  | some s =>
    obtain ⟨a⟩ := s
    cases a with
    | none => simp [fiber_specific_ptr.dtor]
    | some F => simp [fiber_specific_ptr.dtor, Registry.set]

/-! ## Isolation between fibers -/

theorem Registry.binding_withTable_set (r : Registry) (A : FiberId) (key : SlotId)
    (c : fss_cleanup_function) (d : Ptr) (o : Bool) (F : FiberId) (k : SlotId)
    (h : F ≠ A ∨ k ≠ key) :
    (r.withTable A (set_fss_data (r.fss_data_ A) key c d o)).binding F k = r.binding F k := by
  unfold Registry.binding
  by_cases hFA : F = A
  · subst hFA
    have hk : k ≠ key := by
      rcases h with h | h
      · exact absurd rfl h
      · exact h
    rw [Registry.withTable_same, FssTable.find_set_other _ _ _ _ _ _ hk]
  · rw [Registry.withTable_other _ _ _ _ hFA]

theorem fiber_specific_ptr.get_resume (S : fiber_specific_ptr) (r : Registry) (B : FiberId) :
    (S.get (r.resume B)).result
      = .ok (match r.binding B S.addr with
             | some b => b.value
             | none => 0) := by
  rw [S.get_active (Registry.resume_activeFiber r B)]
  rfl

/-- C1: while fiber `A` is active, `reset(p)`, `release()` and the destructor
of slot `S` leave the binding of `(B, S)` of every other fiber `B` unchanged,
so `get()` on `S` while `B` is active returns the same pointer before and
after; the only binding they can change is the one keyed by `(A, S)`. -/
theorem other_fibers_unaffected (pol : FinalizePolicy) (S : fiber_specific_ptr)
    (r : Registry) (A B : FiberId) (p : Ptr) (hA : r.activeFiber = some A) (hAB : A ≠ B) :
    ∀ st ∈ [(S.reset pol p r).state, (S.release pol r).state, (S.dtor pol r).state],
      st.binding B S.addr = r.binding B S.addr ∧
      (S.get (st.resume B)).result = (S.get (r.resume B)).result ∧
      ∀ F k, (F ≠ A ∨ k ≠ S.addr) → st.binding F k = r.binding F k := by
  have key : ∀ st : Registry,
      (∀ F k, (F ≠ A ∨ k ≠ S.addr) → st.binding F k = r.binding F k) →
      st.binding B S.addr = r.binding B S.addr ∧
      (S.get (st.resume B)).result = (S.get (r.resume B)).result ∧
      ∀ F k, (F ≠ A ∨ k ≠ S.addr) → st.binding F k = r.binding F k := by
    intro st hst
    have hB := hst B S.addr (Or.inl (Ne.symm hAB))
    refine ⟨hB, ?_, hst⟩
    rw [S.get_resume, S.get_resume, hB]
  have hset : ∀ d o F k, (F ≠ A ∨ k ≠ S.addr) →
      (r.withTable A (set_fss_data (r.fss_data_ A) S.addr S.cleanup_fn_ d o)).binding F k
        = r.binding F k :=
    fun d o F k h => Registry.binding_withTable_set r A S.addr S.cleanup_fn_ d o F k h
  intro st hmem
  simp only [List.mem_cons, List.mem_singleton, List.not_mem_nil, or_false] at hmem
  rcases hmem with h | h | h
  · subst h
    apply key
    by_cases hc : get_fss_data (r.fss_data_ A) S.addr = p
    · rw [S.reset_active_eq pol p hA hc]
      exact fun _ _ _ => rfl
    · rw [S.reset_active_ne pol p hA hc]
      exact hset p true
  · subst h
    apply key
    rw [S.release_active pol hA]
    exact hset 0 false
  · subst h
    apply key
    rw [S.dtor_active pol hA]
    exact hset 0 true

/-- Instance of `other_fibers_unaffected`: fiber 1 resets slot 10, fiber 2 keeps its binding. -/
theorem other_fibers_unaffected_witness :
    registry_two_fibers.activeFiber = some 1 ∧ (1 : FiberId) ≠ 2 ∧
    ((fiber_specific_ptr.ctor 10).reset never_finalize 9 registry_two_fibers).state.binding 2 10
      = registry_two_fibers.binding 2 10 :=
  ⟨rfl, by decide,
   (other_fibers_unaffected never_finalize (fiber_specific_ptr.ctor 10) registry_two_fibers
      1 2 9 rfl (by decide) _ (List.mem_cons_self _ _)).1⟩

/-! ## Ownership after `release` -/

theorem Registry.terminate_set_slot (r : Registry) (F : FiberId) (tbl : FssTable)
    (key : SlotId) (c : fss_cleanup_function) (d : Ptr) (o : Bool) (inv : Invocation)
    (hmem : inv ∈ ((r.withTable F (set_fss_data tbl key c d o)).terminate F).cleanups)
    (hslot : inv.slot = key) : inv.data = d ∧ o = true := by
  simp only [Registry.terminate, Registry.withTable_same, List.mem_map, List.mem_filter,
    set_fss_data, List.mem_cons] at hmem
  obtain ⟨e, ⟨he | he, howns⟩, rfl⟩ := hmem
  · subst he
    exact ⟨rfl, howns⟩
  · simp at he hslot
    exact absurd hslot he.2

theorem set_fss_data_cleanups_data (pol : FinalizePolicy) (tbl : FssTable) (key : SlotId)
    (d : Ptr) (o : Bool) (b : Binding) (hb : tbl.find key = some b) (inv : Invocation)
    (hmem : inv ∈ set_fss_data_cleanups pol tbl key d o) : inv.data = b.value := by
  simp only [set_fss_data_cleanups, hb] at hmem
  split at hmem
  · simp only [List.mem_singleton] at hmem
    rw [hmem]
  · simp at hmem

/-- C6: with fiber `F` active and the non-null pointer `p` bound to `(F, S)`,
once `release()` has returned `p`, the registry never runs the cleanup of the
binding stored under `S` on `p`: not when `F` terminates, not when the handle
`S` is destroyed while `F` is still active, and not when `F` terminates after
that destruction. -/
theorem release_prevents_cleanup (pol : FinalizePolicy) (S : fiber_specific_ptr)
    (r : Registry) (F : FiberId) (p : Ptr) (hF : r.activeFiber = some F) (hp : p ≠ 0)
    (hb : (S.get r).result = .ok p) :
    (S.release pol r).result = .ok p ∧
    (S.release pol r).state.activeFiber = some F ∧
    (∀ inv ∈ ((S.release pol r).state.terminate F).cleanups, inv.slot ≠ S.addr) ∧
    (∀ inv ∈ (S.dtor pol (S.release pol r).state).cleanups, inv.data ≠ p) ∧
    (∀ inv ∈ ((S.dtor pol (S.release pol r).state).state.terminate F).cleanups,
      inv.slot = S.addr → inv.data ≠ p) := by
  have hF1 : (r.withTable F (set_fss_data (r.fss_data_ F) S.addr S.cleanup_fn_ 0
      false)).activeFiber = some F := hF
  rw [S.get_active hF] at hb
  rw [S.release_active pol hF]
  refine ⟨hb, hF, ?_, ?_, ?_⟩
  · intro inv hmem hslot
    have := (Registry.terminate_set_slot r F _ S.addr S.cleanup_fn_ 0 false inv hmem hslot).2
    exact Bool.noConfusion this
  · intro inv hmem hdata
    show False
    rw [S.dtor_active pol hF1] at hmem
    have h0 := set_fss_data_cleanups_data pol _ S.addr 0 true ⟨0, S.cleanup_fn_, false⟩
      (by rw [Registry.withTable_same, FssTable.find_set_same]) inv hmem
    exact hp (hdata ▸ h0)
  · intro inv hmem hslot hdata
    rw [S.dtor_active pol hF1] at hmem
    have h0 := (Registry.terminate_set_slot _ F _ S.addr S.cleanup_fn_ 0 true inv hmem
      hslot).1
    exact hp (hdata ▸ h0)

/-- Instance of `release_prevents_cleanup`: fiber 1 releases pointer 5, then slot 10 is destroyed. -/
theorem release_prevents_cleanup_witness :
    registry_two_fibers.activeFiber = some 1 ∧ (5 : Ptr) ≠ 0 ∧
    ((fiber_specific_ptr.ctor 10).get registry_two_fibers).result = .ok 5 ∧
    ∀ inv ∈ ((fiber_specific_ptr.ctor 10).dtor finalize_when_owned
        ((fiber_specific_ptr.ctor 10).release finalize_when_owned
          registry_two_fibers).state).cleanups, inv.data ≠ 5 :=
  ⟨rfl, by decide, rfl,
   (release_prevents_cleanup finalize_when_owned (fiber_specific_ptr.ctor 10)
      registry_two_fibers 1 5 rfl (by decide) rfl).2.2.2.1⟩

end boost.fibers
